import Mathlib

/-!
Verification development for the brazil-nut cylinder experiment driver
(`brazil_cylinder.cpp`).  The program consists of a scene builder
(`Quantum::setupInitialConditions`) and a per-step phase controller
(`Quantum::actionsAfterTimeStep`).  Both are shallowly embedded here over
exact rationals (the C++ `double` arithmetic on the schedule constants is
exact for the values involved).  The external engine's clock is modelled
from the spec: the controller is invoked once per step, after the step's
time has been advanced, so the k-th invocation (k = 1, 2, ...) reads the
time t = k * dt for the fixed step size dt.
-/

namespace Quantum

/-- A 3-vector of rationals, mirroring `Vec3D`. -/
structure Vec3D where
  X : ℚ
  Y : ℚ
  Z : ℚ
deriving DecidableEq, Repr

/-- Global configuration constants of the program (file-scope globals in the
source).  They are never mutated by the program. -/
structure Config where
  stop_flow : ℚ
  oscillation_amplitude : ℚ
  pulse_interval : ℚ
  stop_kick : ℚ
deriving DecidableEq, Repr

/-- The values the source gives the global schedule constants:
`stop_flow = 1.0`, `oscillation_amplitude = 1.0`, `pulse_interval = 0.25`,
`stop_kick = 20.0`. -/
def defaultConfig : Config :=
  { stop_flow := 1, oscillation_amplitude := 1, pulse_interval := 1/4, stop_kick := 20 }

/-- The global particle radii and insertion-opening constants of the source:
`big_particle_radius = 0.08`, `small_particle_radius = 0.02`, `eps = 0.2`. -/
def big_particle_radius : ℚ := 2/25

def small_particle_radius : ℚ := 1/50

def eps : ℚ := 1/5

/-- The function-local `static` state of `actionsAfterTimeStep`:
`kick_count` (initially 0) and `kick_interval_counter` (initially 1.5). -/
structure ControllerState where
  kick_count : ℕ
  kick_interval_counter : ℚ
deriving DecidableEq, Repr

/-- A side effect the controller performs on externally owned objects.
`setVolumeFlowRate` targets `boundaryHandler.getLastObject()` (the single
insertion boundary); `setLastWallVelocity` targets
`wallHandler.getLastObject()` (the bottom/floor wall, the last wall added
by `setupInitialConditions`). -/
inductive Effect where
  | setVolumeFlowRate (rate : ℚ)
  | setLastWallVelocity (v : Vec3D)
deriving DecidableEq, Repr

/-- Shallow embedding of `Quantum::actionsAfterTimeStep`: one invocation of
the controller at time `t` with step size `dt`, returning the updated static
state together with the effects performed, mirroring the else-if chain of
the source line by line. -/
def actionsAfterTimeStep (cfg : Config) (t dt : ℚ) (s : ControllerState) :
    ControllerState × List Effect :=
  if t < cfg.stop_flow ∧ t + dt > cfg.stop_flow then
    (s, [Effect.setVolumeFlowRate 0])
  else if s.kick_interval_counter < t ∧ t < s.kick_interval_counter + cfg.pulse_interval then
    (⟨s.kick_count + 1, s.kick_interval_counter + cfg.pulse_interval⟩,
      [Effect.setLastWallVelocity ⟨0, 0, cfg.oscillation_amplitude * (-1) ^ s.kick_count⟩])
  else if t > cfg.stop_kick then
    (s, [Effect.setLastWallVelocity ⟨0, 0, 0⟩])
  else
    (s, [])

/-- The externally owned state the controller can mutate, together with the
controller's own static state: the insertion boundary's volume flow rate and
the floor wall's velocity vector. -/
structure SysState where
  ctrl : ControllerState
  flowRate : ℚ
  floorVel : Vec3D
deriving DecidableEq, Repr

/-- Apply one controller effect to the externally owned state. -/
def applyEffect (st : SysState) : Effect → SysState
  | Effect.setVolumeFlowRate r => { st with flowRate := r }
  | Effect.setLastWallVelocity v => { st with floorVel := v }

/-- One simulation step as seen by the controller: run
`actionsAfterTimeStep` at time `t` and apply its effects. -/
def runStep (cfg : Config) (dt : ℚ) (st : SysState) (t : ℚ) : SysState :=
  ((actionsAfterTimeStep cfg t dt st.ctrl).2).foldl applyEffect
    { st with ctrl := (actionsAfterTimeStep cfg t dt st.ctrl).1 }

/-- Modelled from the spec: the external engine (out of scope in the source)
advances time by the fixed step `dt` and invokes the controller once per
step, after the advance; the k-th invocation therefore reads `t = k * dt`.
`stateAfter cfg dt init k` is the mutable state after `k` such invocations. -/
def stateAfter (cfg : Config) (dt : ℚ) (init : SysState) : ℕ → SysState
  | 0 => init
  | k + 1 => runStep cfg dt (stateAfter cfg dt init k) (((k : ℚ) + 1) * dt)

/-- The effects performed by the k-th controller invocation (none for k = 0,
which is before the first step). -/
def effectsAt (cfg : Config) (dt : ℚ) (init : SysState) : ℕ → List Effect
  | 0 => []
  | k + 1 => (actionsAfterTimeStep cfg (((k : ℚ) + 1) * dt) dt
      (stateAfter cfg dt init k).ctrl).2

/-- Initial mutable state with a given starting kick threshold: zero kicks
so far, flow rate 1 (set by `setupInitialConditions`), floor wall at rest. -/
def initWith (θ : ℚ) : SysState :=
  { ctrl := { kick_count := 0, kick_interval_counter := θ }, flowRate := 1,
    floorVel := ⟨0, 0, 0⟩ }

/-- The source's initial state: `kick_count = 0`,
`kick_interval_counter = 1.5`. -/
def initState : SysState := initWith (3/2)

/-- Did the k-th invocation fire a kick?  (Detected by the kick counter
incrementing, which only the kick branch does.) -/
def kickFiredAt (cfg : Config) (dt : ℚ) (init : SysState) (k : ℕ) : Prop :=
  (stateAfter cfg dt init k).ctrl.kick_count =
    (stateAfter cfg dt init (k - 1)).ctrl.kick_count + 1

instance (cfg : Config) (dt : ℚ) (init : SysState) (k : ℕ) :
    Decidable (kickFiredAt cfg dt init k) := by
  unfold kickFiredAt; infer_instance

/-- Number of kicks fired among invocations 1..k. -/
def kicksUpTo (cfg : Config) (dt : ℚ) (init : SysState) (k : ℕ) : ℕ :=
  ((List.range k).filter (fun j => decide (kickFiredAt cfg dt init (j + 1)))).length

/-- A configuration equal to the source's except `stop_flow = 2`, used to
exercise the flow-shutoff edge at an exact step boundary. -/
def cfgStopFlow2 : Config :=
  { stop_flow := 2, oscillation_amplitude := 1, pulse_interval := 1/4, stop_kick := 20 }

/-- A configuration equal to the source's except `stop_flow = 3/2`, used to
exercise a flow-shutoff edge that a step interval strictly straddles. -/
def cfgFlowMid : Config :=
  { stop_flow := 3/2, oscillation_amplitude := 1, pulse_interval := 1/4, stop_kick := 20 }

/-- Closed form of the run state right after the n-th kick (n counted from
0) in the source-configured scenario with `dt = 1/10000`: the kick counter
reads `n + 1`, the threshold has advanced to `7/4 + n/4`, the flow rate is
still 1 (the shutoff edge never fires for this exact step size), and the
floor wall carries the alternating velocity `(0, 0, (-1)^n)`. -/
def kickStateAt (n : ℕ) : SysState :=
  { ctrl := { kick_count := n + 1, kick_interval_counter := 7/4 + (n : ℚ)/4 },
    flowRate := 1, floorVel := ⟨0, 0, (-1) ^ n⟩ }

/-- A spherical particle: radius, position and velocity (the fields of
`SphericalParticle` the program sets). -/
structure SphericalParticle where
  radius : ℚ
  pos : Vec3D
  vel : Vec3D
deriving DecidableEq, Repr

/-- The data `setupInitialConditions` stores in the
`AxisymmetricIntersectionOfWalls` side wall: its position, the orientation
of its symmetry axis, and the list of (normal, point) pairs added by
`addObject` (in axisymmetric coordinates, so a normal `(1,0,0)` with point
`(r,0,0)` is the infinite cylindrical surface of radius `r`). -/
structure AxisymmetricWall where
  position : Vec3D
  orientation : Vec3D
  objects : List (Vec3D × Vec3D)
deriving DecidableEq, Repr

/-- An `InfiniteWall`: outward normal and a point on the wall. -/
structure InfiniteWall where
  normal : Vec3D
  point : Vec3D
deriving DecidableEq, Repr

/-- A wall stored in `wallHandler`. -/
inductive Wall where
  | axisymmetric (w : AxisymmetricWall)
  | infinite (w : InfiniteWall)
deriving DecidableEq, Repr

/-- The data `CubeInsertionBoundary::set` and `setVolumeFlowRate` store:
the template particle, the `maxFailed` argument, the two corners of the
insertion cuboid, the velocity range, and the volume flow rate. -/
structure CubeInsertionBoundary where
  template : SphericalParticle
  maxFailed : ℕ
  posMin : Vec3D
  posMax : Vec3D
  velMin : Vec3D
  velMax : Vec3D
  flowRate : ℚ
deriving DecidableEq, Repr

/-- The objects `setupInitialConditions` creates, in handler order. -/
structure Scene where
  walls : List Wall
  particles : List SphericalParticle
  boundaries : List CubeInsertionBoundary
deriving DecidableEq, Repr

/-- Shallow embedding of `Quantum::setupInitialConditions`, parameterised by
the domain bounds (set in `main`; the minima keep the engine default 0) and
the three radius/opening globals.  Mirrors the source: the cylindrical side
wall at `(mid.X, mid.Y, 0)` with vertical orientation and radius
`(xMax - xMin)/4`; the big particle at `(mid.X, mid.Y, 2*R)` with zero
velocity; the small-particle template; the cube insertion boundary from
`mid - eps` to `mid + eps` with flow rate 1; the top wall; the bottom
(floor) wall, added last. -/
def setupInitialConditions (xMin xMax yMin yMax zMin zMax R rSmall e : ℚ) : Scene :=
  let mid : Vec3D := ⟨(xMin + xMax) / 2, (yMin + yMax) / 2, (zMin + zMax) / 2⟩
  let w : AxisymmetricWall :=
    { position := ⟨mid.X, mid.Y, 0⟩, orientation := ⟨0, 0, 1⟩,
      objects := [(⟨1, 0, 0⟩, ⟨(xMax - xMin) / 4, 0, 0⟩)] }
  let p1 : SphericalParticle :=
    { radius := R, pos := ⟨mid.X, mid.Y, 2 * R⟩, vel := ⟨0, 0, 0⟩ }
  let p0 : SphericalParticle :=
    { radius := rSmall, pos := ⟨0, 0, 0⟩, vel := ⟨0, 0, 0⟩ }
  let ib : CubeInsertionBoundary :=
    { template := p0, maxFailed := 1,
      posMin := ⟨mid.X - e, mid.Y - e, mid.Z - e⟩,
      posMax := ⟨mid.X + e, mid.Y + e, mid.Z + e⟩,
      velMin := ⟨0, 0, 0⟩, velMax := ⟨0, 0, 0⟩, flowRate := 1 }
  let top_wall : InfiniteWall := { normal := ⟨0, 0, 1⟩, point := ⟨0, 0, zMax⟩ }
  let bottom_wall : InfiniteWall := { normal := ⟨0, 0, -1⟩, point := ⟨0, 0, 0⟩ }
  { walls := [Wall.axisymmetric w, Wall.infinite top_wall, Wall.infinite bottom_wall],
    particles := [p1],
    boundaries := [ib] }

/-! ### Branch lemmas for the controller's else-if chain -/

theorem actions_flow (cfg : Config) (t dt : ℚ) (s : ControllerState)
    (h : t < cfg.stop_flow ∧ t + dt > cfg.stop_flow) :
    actionsAfterTimeStep cfg t dt s = (s, [Effect.setVolumeFlowRate 0]) := by
  unfold actionsAfterTimeStep
  rw [if_pos h]

theorem actions_kick (cfg : Config) (t dt : ℚ) (s : ControllerState)
    (h1 : ¬(t < cfg.stop_flow ∧ t + dt > cfg.stop_flow))
    (h2 : s.kick_interval_counter < t ∧ t < s.kick_interval_counter + cfg.pulse_interval) :
    actionsAfterTimeStep cfg t dt s =
      (⟨s.kick_count + 1, s.kick_interval_counter + cfg.pulse_interval⟩,
        [Effect.setLastWallVelocity ⟨0, 0, cfg.oscillation_amplitude * (-1) ^ s.kick_count⟩]) := by
  unfold actionsAfterTimeStep
  rw [if_neg h1, if_pos h2]

theorem actions_zero (cfg : Config) (t dt : ℚ) (s : ControllerState)
    (h1 : ¬(t < cfg.stop_flow ∧ t + dt > cfg.stop_flow))
    (h2 : ¬(s.kick_interval_counter < t ∧ t < s.kick_interval_counter + cfg.pulse_interval))
    (h3 : t > cfg.stop_kick) :
    actionsAfterTimeStep cfg t dt s = (s, [Effect.setLastWallVelocity ⟨0, 0, 0⟩]) := by
  unfold actionsAfterTimeStep
  rw [if_neg h1, if_neg h2, if_pos h3]

theorem actions_none (cfg : Config) (t dt : ℚ) (s : ControllerState)
    (h1 : ¬(t < cfg.stop_flow ∧ t + dt > cfg.stop_flow))
    (h2 : ¬(s.kick_interval_counter < t ∧ t < s.kick_interval_counter + cfg.pulse_interval))
    (h3 : ¬(t > cfg.stop_kick)) :
    actionsAfterTimeStep cfg t dt s = (s, []) := by
  unfold actionsAfterTimeStep
  rw [if_neg h1, if_neg h2, if_neg h3]

theorem runStep_flow (cfg : Config) (dt : ℚ) (st : SysState) (t : ℚ)
    (h : t < cfg.stop_flow ∧ t + dt > cfg.stop_flow) :
    runStep cfg dt st t = { st with flowRate := 0 } := by
  unfold runStep
  rw [actions_flow cfg t dt st.ctrl h]
  rfl

theorem runStep_kick (cfg : Config) (dt : ℚ) (st : SysState) (t : ℚ)
    (h1 : ¬(t < cfg.stop_flow ∧ t + dt > cfg.stop_flow))
    (h2 : st.ctrl.kick_interval_counter < t ∧
      t < st.ctrl.kick_interval_counter + cfg.pulse_interval) :
    runStep cfg dt st t =
      { ctrl := ⟨st.ctrl.kick_count + 1, st.ctrl.kick_interval_counter + cfg.pulse_interval⟩,
        flowRate := st.flowRate,
        floorVel := ⟨0, 0, cfg.oscillation_amplitude * (-1) ^ st.ctrl.kick_count⟩ } := by
  unfold runStep
  rw [actions_kick cfg t dt st.ctrl h1 h2]
  rfl

theorem runStep_zero (cfg : Config) (dt : ℚ) (st : SysState) (t : ℚ)
    (h1 : ¬(t < cfg.stop_flow ∧ t + dt > cfg.stop_flow))
    (h2 : ¬(st.ctrl.kick_interval_counter < t ∧
      t < st.ctrl.kick_interval_counter + cfg.pulse_interval))
    (h3 : t > cfg.stop_kick) :
    runStep cfg dt st t = { st with floorVel := ⟨0, 0, 0⟩ } := by
  unfold runStep
  rw [actions_zero cfg t dt st.ctrl h1 h2 h3]
  rfl

theorem runStep_none (cfg : Config) (dt : ℚ) (st : SysState) (t : ℚ)
    (h1 : ¬(t < cfg.stop_flow ∧ t + dt > cfg.stop_flow))
    (h2 : ¬(st.ctrl.kick_interval_counter < t ∧
      t < st.ctrl.kick_interval_counter + cfg.pulse_interval))
    (h3 : ¬(t > cfg.stop_kick)) :
    runStep cfg dt st t = st := by
  unfold runStep
  rw [actions_none cfg t dt st.ctrl h1 h2 h3]
  rfl

theorem stateAfter_succ (cfg : Config) (dt : ℚ) (init : SysState) (k : ℕ) :
    stateAfter cfg dt init (k + 1) =
      runStep cfg dt (stateAfter cfg dt init k) (((k : ℚ) + 1) * dt) := rfl

theorem effectsAt_succ (cfg : Config) (dt : ℚ) (init : SysState) (k : ℕ) :
    effectsAt cfg dt init (k + 1) =
      (actionsAfterTimeStep cfg (((k : ℚ) + 1) * dt) dt (stateAfter cfg dt init k).ctrl).2 := rfl

/-- If the state `s` is a fixed point of every step in the range `(k₀, k₁]`,
the run stays at `s` from `k₀` through `k₁`. -/
theorem stateAfter_const (cfg : Config) (dt : ℚ) (init : SysState) (s : SysState) (k₀ : ℕ)
    (h0 : stateAfter cfg dt init k₀ = s) :
    ∀ k₁ : ℕ, k₀ ≤ k₁ →
      (∀ k : ℕ, k₀ < k → k ≤ k₁ → runStep cfg dt s ((k : ℚ) * dt) = s) →
      stateAfter cfg dt init k₁ = s := by
  intro k₁
  induction k₁ with
  | zero =>
    intro hle _
    exact (Nat.le_zero.mp hle) ▸ h0
  | succ m ih =>
    intro hle hsteps
    rcases Nat.lt_or_ge k₀ (m + 1) with hlt | hge
    · have hm : stateAfter cfg dt init m = s :=
        ih (Nat.lt_succ_iff.mp hlt) (fun k hk1 hk2 => hsteps k hk1 (Nat.le_succ_of_le hk2))
      have hstep := hsteps (m + 1) hlt (Nat.le_refl _)
      rw [stateAfter_succ, hm]
      have hcast : ((m + 1 : ℕ) : ℚ) = (m : ℚ) + 1 := by push_cast; ring
      rw [hcast] at hstep
      exact hstep
    · have hk : k₀ = m + 1 := Nat.le_antisymm hle hge
      exact hk ▸ h0


/-! ### Claim theorems -/

/-- Claim C6: after every step, the controller state satisfies
`kick_interval_counter = initial_threshold + kick_count * pulse_interval`:
the threshold starts at the configured start time and every kick adds
exactly one `pulse_interval` while incrementing the counter by one. -/
theorem C6_threshold_invariant (cfg : Config) (dt θ₀ : ℚ) (k : ℕ) :
    (stateAfter cfg dt (initWith θ₀) k).ctrl.kick_interval_counter =
      θ₀ + ((stateAfter cfg dt (initWith θ₀) k).ctrl.kick_count : ℚ) * cfg.pulse_interval := by
  induction k with
  | zero => simp [stateAfter, initWith]
  | succ k ih =>
    rw [stateAfter_succ]
    by_cases h1 : ((k : ℚ) + 1) * dt < cfg.stop_flow ∧
        ((k : ℚ) + 1) * dt + dt > cfg.stop_flow
    · rw [runStep_flow cfg dt _ _ h1]
      exact ih
    · by_cases h2 : (stateAfter cfg dt (initWith θ₀) k).ctrl.kick_interval_counter <
          ((k : ℚ) + 1) * dt ∧ ((k : ℚ) + 1) * dt <
          (stateAfter cfg dt (initWith θ₀) k).ctrl.kick_interval_counter + cfg.pulse_interval
      · rw [runStep_kick cfg dt _ _ h1 h2]
        show (stateAfter cfg dt (initWith θ₀) k).ctrl.kick_interval_counter +
            cfg.pulse_interval =
          θ₀ + (((stateAfter cfg dt (initWith θ₀) k).ctrl.kick_count + 1 : ℕ) : ℚ) *
            cfg.pulse_interval
        rw [ih]
        push_cast
        ring
      · by_cases h3 : ((k : ℚ) + 1) * dt > cfg.stop_kick
        · rw [runStep_zero cfg dt _ _ h1 h2 h3]
          exact ih
        · rw [runStep_none cfg dt _ _ h1 h2 h3]
          exact ih

/-- Claim C7 (amended): `setupInitialConditions` places the single tracer
particle at `(mid.X, mid.Y, 2 * big_particle_radius)` — the x/y midpoint of
the container, at height twice the particle radius above `z = 0` (the
container base), not offset from the bounding-box midpoint — with zero
initial velocity and the configured large radius. -/
theorem C7_tracer_placement (xMin xMax yMin yMax zMin zMax R rS e : ℚ) :
    (setupInitialConditions xMin xMax yMin yMax zMin zMax R rS e).particles =
      [{ radius := R, pos := ⟨(xMin + xMax) / 2, (yMin + yMax) / 2, 2 * R⟩,
         vel := ⟨0, 0, 0⟩ }] := rfl

/-- Claim C7 counterexample: with the bounds the program's `main` sets
(maxima `(1, 1, 3)`, engine-default minima `0`) and the configured radii,
the tracer's position is `(1/2, 1/2, 0.16)`, which is not the claimed
`(mid.X, mid.Y, mid.Z + 2 * big_particle_radius) = (1/2, 1/2, 1.66)`. -/
theorem C7_counterexample :
    (setupInitialConditions 0 1 0 1 0 3 big_particle_radius small_particle_radius
        eps).particles.map (fun p => p.pos) = [⟨1/2, 1/2, 4/25⟩]
    ∧ ((⟨1/2, 1/2, 4/25⟩ : Vec3D) ≠
        ⟨(0 + 1) / 2, (0 + 1) / 2, (0 + 3) / 2 + 2 * big_particle_radius⟩) := by
  constructor
  · show [(⟨(0 + 1) / 2, (0 + 1) / 2, 2 * big_particle_radius⟩ : Vec3D)] = _
    simp only [Vec3D.mk.injEq, List.cons.injEq, and_true]
    norm_num [big_particle_radius]
  · intro h
    have hz := congrArg Vec3D.Z h
    norm_num [big_particle_radius] at hz

/-- Claim C8: `setupInitialConditions` creates the side wall as an
axisymmetric wall whose symmetry axis is vertical and passes through the
container's bounding-box midpoint, carrying the single cylindrical surface
of radius `(xMax - xMin) / 4`, and creates exactly one insertion region
centered on the midpoint with half-width `eps` in all three axes and a
positive initial flow rate. -/
theorem C8_side_wall_and_insertion (xMin xMax yMin yMax zMin zMax R rS e : ℚ) :
    ∃ (wA : AxisymmetricWall) (ib : CubeInsertionBoundary),
      (setupInitialConditions xMin xMax yMin yMax zMin zMax R rS e).walls.head? =
          some (Wall.axisymmetric wA)
      ∧ wA.orientation = ⟨0, 0, 1⟩
      ∧ (∃ c : ℚ,
          (⟨wA.position.X + c * wA.orientation.X, wA.position.Y + c * wA.orientation.Y,
            wA.position.Z + c * wA.orientation.Z⟩ : Vec3D) =
            ⟨(xMin + xMax) / 2, (yMin + yMax) / 2, (zMin + zMax) / 2⟩)
      ∧ wA.objects = [(⟨1, 0, 0⟩, ⟨(xMax - xMin) / 4, 0, 0⟩)]
      ∧ (setupInitialConditions xMin xMax yMin yMax zMin zMax R rS e).boundaries = [ib]
      ∧ ib.posMin = ⟨(xMin + xMax) / 2 - e, (yMin + yMax) / 2 - e, (zMin + zMax) / 2 - e⟩
      ∧ ib.posMax = ⟨(xMin + xMax) / 2 + e, (yMin + yMax) / 2 + e, (zMin + zMax) / 2 + e⟩
      ∧ ib.flowRate = 1 ∧ 0 < ib.flowRate := by
  refine ⟨_, _, rfl, rfl, ⟨(zMin + zMax) / 2, ?_⟩, rfl, rfl, rfl, rfl, rfl, by norm_num⟩
  show (⟨(xMin + xMax) / 2 + (zMin + zMax) / 2 * 0, (yMin + yMax) / 2 + (zMin + zMax) / 2 * 0,
      0 + (zMin + zMax) / 2 * 1⟩ : Vec3D) = _
  simp only [Vec3D.mk.injEq]
  refine ⟨by ring, by ring, by ring⟩

/-- Claim C9: on every single controller invocation at most one of the three
actions happens, in the priority order flow-shutoff, kick, zero-forcing; in
particular on a step where the flow-shutoff edge fires nothing else happens
and the kick state is unchanged, even if the time is inside the kick
window. -/
theorem C9_priority_order (cfg : Config) (t dt : ℚ) (s : ControllerState) :
    (actionsAfterTimeStep cfg t dt s).2.length ≤ 1
    ∧ ((t < cfg.stop_flow ∧ t + dt > cfg.stop_flow) →
        actionsAfterTimeStep cfg t dt s = (s, [Effect.setVolumeFlowRate 0]))
    ∧ (¬(t < cfg.stop_flow ∧ t + dt > cfg.stop_flow) →
        (s.kick_interval_counter < t ∧ t < s.kick_interval_counter + cfg.pulse_interval) →
        actionsAfterTimeStep cfg t dt s =
          (⟨s.kick_count + 1, s.kick_interval_counter + cfg.pulse_interval⟩,
            [Effect.setLastWallVelocity
              ⟨0, 0, cfg.oscillation_amplitude * (-1) ^ s.kick_count⟩]))
    ∧ (¬(t < cfg.stop_flow ∧ t + dt > cfg.stop_flow) →
        ¬(s.kick_interval_counter < t ∧ t < s.kick_interval_counter + cfg.pulse_interval) →
        t > cfg.stop_kick →
        actionsAfterTimeStep cfg t dt s = (s, [Effect.setLastWallVelocity ⟨0, 0, 0⟩]))
    ∧ (¬(t < cfg.stop_flow ∧ t + dt > cfg.stop_flow) →
        ¬(s.kick_interval_counter < t ∧ t < s.kick_interval_counter + cfg.pulse_interval) →
        ¬(t > cfg.stop_kick) →
        actionsAfterTimeStep cfg t dt s = (s, [])) := by
  refine ⟨?_, actions_flow cfg t dt s, actions_kick cfg t dt s, actions_zero cfg t dt s,
    actions_none cfg t dt s⟩
  by_cases h1 : t < cfg.stop_flow ∧ t + dt > cfg.stop_flow
  · rw [actions_flow cfg t dt s h1]
    exact Nat.le_refl 1
  · by_cases h2 : s.kick_interval_counter < t ∧
        t < s.kick_interval_counter + cfg.pulse_interval
    · rw [actions_kick cfg t dt s h1 h2]
      exact Nat.le_refl 1
    · by_cases h3 : t > cfg.stop_kick
      · rw [actions_zero cfg t dt s h1 h2 h3]
        exact Nat.le_refl 1
      · rw [actions_none cfg t dt s h1 h2 h3]
        exact Nat.zero_le 1

/-- Claim C9 witness: at `t = 0.9`, `dt = 0.2`, with the kick threshold at
`0.8`, both the flow-shutoff edge and the kick window hold, and the
invocation performs only the flow-rate write, leaving the kick state
unchanged. -/
theorem C9_priority_order_witness :
    ((9/10 : ℚ) < defaultConfig.stop_flow ∧ (9/10 : ℚ) + 1/5 > defaultConfig.stop_flow)
    ∧ ((4/5 : ℚ) < 9/10 ∧ (9/10 : ℚ) < 4/5 + defaultConfig.pulse_interval)
    ∧ actionsAfterTimeStep defaultConfig (9/10) (1/5) ⟨0, 4/5⟩ =
        (⟨0, 4/5⟩, [Effect.setVolumeFlowRate 0]) :=
  ⟨by norm_num [defaultConfig], by norm_num [defaultConfig],
    (C9_priority_order defaultConfig (9/10) (1/5) ⟨0, 4/5⟩).2.1 (by norm_num [defaultConfig])⟩

/-- Claim C10: every velocity the controller writes goes to the last wall of
the scene (which is the floor wall: the upward-facing infinite plane at the
container base, added last by `setupInitialConditions`), and every such
velocity has zero x and y components and z component `0`, `+amplitude` or
`-amplitude`. -/
theorem C10_wall_velocity_range :
    (∀ (cfg : Config) (t dt : ℚ) (s : ControllerState) (v : Vec3D),
      Effect.setLastWallVelocity v ∈ (actionsAfterTimeStep cfg t dt s).2 →
        v.X = 0 ∧ v.Y = 0 ∧ (v.Z = 0 ∨ v.Z = cfg.oscillation_amplitude ∨
          v.Z = -cfg.oscillation_amplitude))
    ∧ (∀ xMin xMax yMin yMax zMin zMax R rS e : ℚ,
        (setupInitialConditions xMin xMax yMin yMax zMin zMax R rS e).walls.getLast? =
          some (Wall.infinite { normal := ⟨0, 0, -1⟩, point := ⟨0, 0, 0⟩ })) := by
  constructor
  · intro cfg t dt s v hv
    by_cases h1 : t < cfg.stop_flow ∧ t + dt > cfg.stop_flow
    · rw [actions_flow cfg t dt s h1] at hv
      simp at hv
    · by_cases h2 : s.kick_interval_counter < t ∧
          t < s.kick_interval_counter + cfg.pulse_interval
      · rw [actions_kick cfg t dt s h1 h2] at hv
        simp only [List.mem_singleton, Effect.setLastWallVelocity.injEq] at hv
        subst hv
        refine ⟨rfl, rfl, ?_⟩
        rcases Nat.even_or_odd s.kick_count with he | ho
        · right; left
          show cfg.oscillation_amplitude * (-1) ^ s.kick_count = _
          rw [he.neg_one_pow, mul_one]
        · right; right
          show cfg.oscillation_amplitude * (-1) ^ s.kick_count = _
          rw [ho.neg_one_pow, mul_neg_one]
      · by_cases h3 : t > cfg.stop_kick
        · rw [actions_zero cfg t dt s h1 h2 h3] at hv
          simp only [List.mem_singleton, Effect.setLastWallVelocity.injEq] at hv
          subst hv
          exact ⟨rfl, rfl, Or.inl rfl⟩
        · rw [actions_none cfg t dt s h1 h2 h3] at hv
          simp at hv
  · intro xMin xMax yMin yMax zMin zMax R rS e
    rfl

/-- Claim C10 witness: the kick the controller fires at `t = 1.6` from the
initial kick state writes velocity `(0, 0, 1)`, which indeed has zero x and
y components and z component equal to `+amplitude`. -/
theorem C10_wall_velocity_range_witness :
    Effect.setLastWallVelocity ⟨0, 0, 1⟩ ∈
        (actionsAfterTimeStep defaultConfig (8/5) (1/10) ⟨0, 3/2⟩).2
    ∧ ((⟨0, 0, 1⟩ : Vec3D).X = 0 ∧ (⟨0, 0, 1⟩ : Vec3D).Y = 0 ∧
        ((⟨0, 0, 1⟩ : Vec3D).Z = 0 ∨
          (⟨0, 0, 1⟩ : Vec3D).Z = defaultConfig.oscillation_amplitude ∨
          (⟨0, 0, 1⟩ : Vec3D).Z = -defaultConfig.oscillation_amplitude)) := by
  have hk := actions_kick defaultConfig (8/5) (1/10) ⟨0, 3/2⟩
    (by norm_num [defaultConfig]) (by norm_num [defaultConfig])
  have hmem : Effect.setLastWallVelocity ⟨0, 0, 1⟩ ∈
      (actionsAfterTimeStep defaultConfig (8/5) (1/10) ⟨0, 3/2⟩).2 := by
    rw [hk]
    simp [defaultConfig]
  exact ⟨hmem,
    C10_wall_velocity_range.1 defaultConfig (8/5) (1/10) ⟨0, 3/2⟩ ⟨0, 0, 1⟩ hmem⟩

/-! ### Concrete frozen runs (used by witnesses and counterexamples) -/

/-- With the source configuration and step size `dt = 1` the controller
never fires any branch that changes the state during the whole 25-second
run: the flow edge is never straddled, the kick window `(1.5, 1.75)`
contains no step time, and the post-cutoff branch only rewrites the already
zero floor velocity. -/
theorem frozen_dt1 (k : ℕ) (_hk : k ≤ 25) :
    stateAfter defaultConfig 1 initState k = initState := by
  refine stateAfter_const defaultConfig 1 initState initState 0 rfl k (Nat.zero_le k) ?_
  intro m hm0 hmk
  have hm1 : (1 : ℚ) ≤ (m : ℚ) := by exact_mod_cast hm0
  have hmul : (m : ℚ) * 1 = (m : ℚ) := mul_one _
  have h1 : ¬((m : ℚ) * 1 < defaultConfig.stop_flow ∧
      (m : ℚ) * 1 + 1 > defaultConfig.stop_flow) := by
    rintro ⟨c1, -⟩
    rw [hmul] at c1
    simp only [defaultConfig] at c1
    linarith
  have h2 : ¬(initState.ctrl.kick_interval_counter < (m : ℚ) * 1 ∧
      (m : ℚ) * 1 < initState.ctrl.kick_interval_counter + defaultConfig.pulse_interval) := by
    rintro ⟨c1, c2⟩
    rw [hmul] at c1 c2
    simp only [initState, initWith, defaultConfig] at c1 c2
    have hc1 : (6 : ℚ) < 4 * (m : ℚ) := by linarith
    have hc2 : (4 : ℚ) * (m : ℚ) < 7 := by linarith
    have hn1 : 6 < 4 * m := by exact_mod_cast hc1
    have hn2 : 4 * m < 7 := by exact_mod_cast hc2
    omega
  by_cases h3 : (m : ℚ) * 1 > defaultConfig.stop_kick
  · rw [runStep_zero defaultConfig 1 initState _ h1 h2 h3]
    rfl
  · rw [runStep_none defaultConfig 1 initState _ h1 h2 h3]

/-- With `stop_flow = 2` and `dt = 1` no branch ever changes the state in
the first five steps: in particular the flow edge `t < 2 < t + 1` is never
strictly straddled because `2` is an exact step time. -/
theorem frozen_sf2 (k : ℕ) (hk : k ≤ 5) :
    stateAfter cfgStopFlow2 1 initState k = initState := by
  refine stateAfter_const cfgStopFlow2 1 initState initState 0 rfl k (Nat.zero_le k) ?_
  intro m hm0 hmk
  have hm5 : m ≤ 5 := le_trans hmk hk
  have hm5q : (m : ℚ) ≤ 5 := by exact_mod_cast hm5
  have hmul : (m : ℚ) * 1 = (m : ℚ) := mul_one _
  have h1 : ¬((m : ℚ) * 1 < cfgStopFlow2.stop_flow ∧
      (m : ℚ) * 1 + 1 > cfgStopFlow2.stop_flow) := by
    rintro ⟨c1, c2⟩
    rw [hmul] at c1 c2
    simp only [cfgStopFlow2] at c1 c2
    have hn1 : m < 2 := by exact_mod_cast c1
    have hn2 : (1 : ℚ) < (m : ℚ) := by linarith
    have hn2' : 1 < m := by exact_mod_cast hn2
    omega
  have h2 : ¬(initState.ctrl.kick_interval_counter < (m : ℚ) * 1 ∧
      (m : ℚ) * 1 < initState.ctrl.kick_interval_counter + cfgStopFlow2.pulse_interval) := by
    rintro ⟨c1, c2⟩
    rw [hmul] at c1 c2
    simp only [initState, initWith, cfgStopFlow2] at c1 c2
    have hc1 : (6 : ℚ) < 4 * (m : ℚ) := by linarith
    have hc2 : (4 : ℚ) * (m : ℚ) < 7 := by linarith
    have hn1 : 6 < 4 * m := by exact_mod_cast hc1
    have hn2 : 4 * m < 7 := by exact_mod_cast hc2
    omega
  have h3 : ¬((m : ℚ) * 1 > cfgStopFlow2.stop_kick) := by
    intro c
    rw [hmul] at c
    simp only [cfgStopFlow2] at c
    linarith
  rw [runStep_none cfgStopFlow2 1 initState _ h1 h2 h3]

/-- With the source configuration and `dt = 1/10` the state is unchanged
through step 15 (time 1.5): the flow edge needs a step time strictly inside
`(0.9, 1)` and there is none, and the kick window starts only after 1.5. -/
theorem frozen_dt10 (k : ℕ) (hk : k ≤ 15) :
    stateAfter defaultConfig (1/10) initState k = initState := by
  refine stateAfter_const defaultConfig (1/10) initState initState 0 rfl k (Nat.zero_le k) ?_
  intro m hm0 hmk
  have hm15 : m ≤ 15 := le_trans hmk hk
  have hm15q : (m : ℚ) ≤ 15 := by exact_mod_cast hm15
  have h1 : ¬((m : ℚ) * (1/10) < defaultConfig.stop_flow ∧
      (m : ℚ) * (1/10) + 1/10 > defaultConfig.stop_flow) := by
    rintro ⟨c1, c2⟩
    simp only [defaultConfig] at c1 c2
    have hn1 : m < 10 := by exact_mod_cast (by linarith : (m : ℚ) < 10)
    have hn2 : 9 < m := by exact_mod_cast (by linarith : (9 : ℚ) < (m : ℚ))
    omega
  have h2 : ¬(initState.ctrl.kick_interval_counter < (m : ℚ) * (1/10) ∧
      (m : ℚ) * (1/10) < initState.ctrl.kick_interval_counter +
        defaultConfig.pulse_interval) := by
    rintro ⟨c1, -⟩
    simp only [initState, initWith, defaultConfig] at c1
    have : (15 : ℚ) < (m : ℚ) := by linarith
    have : 15 < m := by exact_mod_cast this
    omega
  have h3 : ¬((m : ℚ) * (1/10) > defaultConfig.stop_kick) := by
    intro c
    simp only [defaultConfig] at c
    linarith
  rw [runStep_none defaultConfig (1/10) initState _ h1 h2 h3]

/-- Claim C4 (amended): a fully missed kick window is permanent, not a
shift: once the time of some step has reached
`kick_interval_counter + pulse_interval` without a kick having fired, the
kick state never changes again — no subsequent kick ever fires, because the
threshold only advances when a kick fires. -/
theorem C4_missed_kick_is_permanent (cfg : Config) (dt : ℚ) (init : SysState) (k j : ℕ)
    (hdt : 0 < dt) (hkj : k ≤ j)
    (hmiss : (stateAfter cfg dt init k).ctrl.kick_interval_counter + cfg.pulse_interval ≤
      (k : ℚ) * dt) :
    (stateAfter cfg dt init j).ctrl = (stateAfter cfg dt init k).ctrl := by
  induction j, hkj using Nat.le_induction with
  | base => rfl
  | succ m hkm ih =>
    rw [stateAfter_succ]
    have hkm' : (k : ℚ) ≤ (m : ℚ) := by exact_mod_cast hkm
    have htime : (k : ℚ) * dt < ((m : ℚ) + 1) * dt := by
      have h1 : (k : ℚ) * dt ≤ (m : ℚ) * dt :=
        mul_le_mul_of_nonneg_right hkm' (le_of_lt hdt)
      nlinarith
    have h2 : ¬((stateAfter cfg dt init m).ctrl.kick_interval_counter < ((m : ℚ) + 1) * dt ∧
        ((m : ℚ) + 1) * dt < (stateAfter cfg dt init m).ctrl.kick_interval_counter +
          cfg.pulse_interval) := by
      rintro ⟨-, hb⟩
      rw [ih] at hb
      linarith
    by_cases h1 : ((m : ℚ) + 1) * dt < cfg.stop_flow ∧
        ((m : ℚ) + 1) * dt + dt > cfg.stop_flow
    · rw [runStep_flow cfg dt _ _ h1]
      exact ih
    · by_cases h3 : ((m : ℚ) + 1) * dt > cfg.stop_kick
      · rw [runStep_zero cfg dt _ _ h1 h2 h3]
        exact ih
      · rw [runStep_none cfg dt _ _ h1 h2 h3]
        exact ih

/-- Claim C4 witness: with the source configuration and `dt = 1`, by step 2
(time 2) the first kick window has been passed without firing, and the kick
state at step 7 is still the kick state of step 2. -/
theorem C4_missed_kick_is_permanent_witness :
    (0 : ℚ) < 1 ∧ 2 ≤ 7
    ∧ (stateAfter defaultConfig 1 initState 2).ctrl.kick_interval_counter +
        defaultConfig.pulse_interval ≤ (2 : ℚ) * 1
    ∧ (stateAfter defaultConfig 1 initState 7).ctrl =
        (stateAfter defaultConfig 1 initState 2).ctrl := by
  have h2 : stateAfter defaultConfig 1 initState 2 = initState := frozen_dt1 2 (by omega)
  have hmiss : (stateAfter defaultConfig 1 initState 2).ctrl.kick_interval_counter +
      defaultConfig.pulse_interval ≤ (2 : ℚ) * 1 := by
    rw [h2]
    norm_num [initState, initWith, defaultConfig]
  exact ⟨by norm_num, by omega, hmiss,
    C4_missed_kick_is_permanent defaultConfig 1 initState 2 7 (by norm_num) (by omega) hmiss⟩

/-- Claim C4 counterexample: in the program's own run length (25 seconds)
with step size `dt = 1`, the kick window `(1.5, 1.75)` contains no step
time, and contrary to the claim no later kick fires either: the kick
counter is still 0 and the threshold still `1.5` both right after the
missed window (step 2) and at the end of the run (step 25).  The missed
kick is lost permanently, and so are all subsequent ones. -/
theorem C4_counterexample :
    (3/2 : ℚ) + defaultConfig.pulse_interval ≤ (2 : ℚ) * 1
    ∧ (stateAfter defaultConfig 1 initState 2).ctrl = ⟨0, 3/2⟩
    ∧ (stateAfter defaultConfig 1 initState 25).ctrl = ⟨0, 3/2⟩ := by
  refine ⟨by norm_num [defaultConfig], ?_, ?_⟩
  · rw [frozen_dt1 2 (by omega)]
    rfl
  · rw [frozen_dt1 25 (by omega)]
    rfl

/-- No branch of the controller can make a zero flow rate nonzero: the only
write to the flow rate writes 0. -/
theorem runStep_flowRate_zero (cfg : Config) (dt : ℚ) (st : SysState) (t : ℚ)
    (h : st.flowRate = 0) : (runStep cfg dt st t).flowRate = 0 := by
  by_cases h1 : t < cfg.stop_flow ∧ t + dt > cfg.stop_flow
  · rw [runStep_flow cfg dt st t h1]
  · by_cases h2 : st.ctrl.kick_interval_counter < t ∧
        t < st.ctrl.kick_interval_counter + cfg.pulse_interval
    · rw [runStep_kick cfg dt st t h1 h2]
      exact h
    · by_cases h3 : t > cfg.stop_kick
      · rw [runStep_zero cfg dt st t h1 h2 h3]
        exact h
      · rw [runStep_none cfg dt st t h1 h2 h3]
        exact h

/-- Claim C2 (amended): for every positive step size `dt` and every
`stop_flow`, the flow rate is written (with value 0) by invocation `k`
exactly when the open interval `(t, t + dt)` of that step strictly
straddles `stop_flow`, i.e. `t < stop_flow < t + dt` (strict on the right,
unlike the claim's `t < stop_flow ≤ t + dt`); at most one invocation
satisfies this (possibly none, e.g. when `stop_flow` is an exact multiple
of `dt`); and once it fires the flow rate is 0 at every later step and the
insertion region is never written on any other invocation. -/
theorem C2_flow_shutoff (cfg : Config) (dt : ℚ) (init : SysState) (hdt : 0 < dt) :
    (∀ (k : ℕ) (r : ℚ), Effect.setVolumeFlowRate r ∈ effectsAt cfg dt init k ↔
        (r = 0 ∧ 1 ≤ k ∧ (k : ℚ) * dt < cfg.stop_flow ∧
          cfg.stop_flow < (k : ℚ) * dt + dt))
    ∧ (∀ k₁ k₂ : ℕ,
        ((k₁ : ℚ) * dt < cfg.stop_flow ∧ cfg.stop_flow < (k₁ : ℚ) * dt + dt) →
        ((k₂ : ℚ) * dt < cfg.stop_flow ∧ cfg.stop_flow < (k₂ : ℚ) * dt + dt) → k₁ = k₂)
    ∧ (∀ k j : ℕ, Effect.setVolumeFlowRate 0 ∈ effectsAt cfg dt init k → k ≤ j →
        (stateAfter cfg dt init j).flowRate = 0) := by
  have mem_iff : ∀ (k : ℕ) (r : ℚ), Effect.setVolumeFlowRate r ∈ effectsAt cfg dt init k ↔
      (r = 0 ∧ 1 ≤ k ∧ (k : ℚ) * dt < cfg.stop_flow ∧
        cfg.stop_flow < (k : ℚ) * dt + dt) := by
    intro k r
    cases k with
    | zero => simp [effectsAt]
    | succ m =>
      rw [effectsAt_succ]
      have hcast : ((m + 1 : ℕ) : ℚ) = (m : ℚ) + 1 := by push_cast; ring
      by_cases h1 : ((m : ℚ) + 1) * dt < cfg.stop_flow ∧
          ((m : ℚ) + 1) * dt + dt > cfg.stop_flow
      · rw [actions_flow cfg _ dt _ h1]
        simp only [List.mem_singleton, Effect.setVolumeFlowRate.injEq]
        constructor
        · intro hr
          refine ⟨hr, Nat.succ_le_succ (Nat.zero_le m), ?_, ?_⟩
          · rw [hcast]; exact h1.1
          · rw [hcast]; exact h1.2
        · intro h; exact h.1
      · have hnot : Effect.setVolumeFlowRate r ∉
            (actionsAfterTimeStep cfg (((m : ℚ) + 1) * dt) dt
              (stateAfter cfg dt init m).ctrl).2 := by
          by_cases h2 : (stateAfter cfg dt init m).ctrl.kick_interval_counter <
              ((m : ℚ) + 1) * dt ∧ ((m : ℚ) + 1) * dt <
              (stateAfter cfg dt init m).ctrl.kick_interval_counter + cfg.pulse_interval
          · rw [actions_kick cfg _ dt _ h1 h2]; simp
          · by_cases h3 : ((m : ℚ) + 1) * dt > cfg.stop_kick
            · rw [actions_zero cfg _ dt _ h1 h2 h3]; simp
            · rw [actions_none cfg _ dt _ h1 h2 h3]; simp
        constructor
        · intro hmem; exact absurd hmem hnot
        · rintro ⟨-, -, hc1, hc2⟩
          rw [hcast] at hc1 hc2
          exact absurd ⟨hc1, hc2⟩ h1
  refine ⟨mem_iff, ?_, ?_⟩
  · intro k₁ k₂ hA hB
    by_contra hne
    rcases Nat.lt_or_ge k₁ k₂ with hlt | hge
    · have hle : (k₁ : ℚ) + 1 ≤ (k₂ : ℚ) := by exact_mod_cast hlt
      have hmul := mul_le_mul_of_nonneg_right hle (le_of_lt hdt)
      have hring : ((k₁ : ℚ) + 1) * dt = (k₁ : ℚ) * dt + dt := by ring
      linarith [hA.2, hB.1]
    · have hlt2 : k₂ < k₁ := Nat.lt_of_le_of_ne hge (fun h => hne h.symm)
      have hle : (k₂ : ℚ) + 1 ≤ (k₁ : ℚ) := by exact_mod_cast hlt2
      have hmul := mul_le_mul_of_nonneg_right hle (le_of_lt hdt)
      have hring : ((k₂ : ℚ) + 1) * dt = (k₂ : ℚ) * dt + dt := by ring
      linarith [hB.2, hA.1]
  · intro k j hmem hkj
    obtain ⟨hr0, hk1, hc1, hc2⟩ := (mem_iff k 0).mp hmem
    obtain ⟨m, rfl⟩ : ∃ m, k = m + 1 := ⟨k - 1, (Nat.succ_pred_eq_of_pos hk1).symm⟩
    have hcast : ((m + 1 : ℕ) : ℚ) = (m : ℚ) + 1 := by push_cast; ring
    rw [hcast] at hc1 hc2
    have hbase : (stateAfter cfg dt init (m + 1)).flowRate = 0 := by
      rw [stateAfter_succ, runStep_flow cfg dt _ _ ⟨hc1, hc2⟩]
    induction j, hkj using Nat.le_induction with
    | base => exact hbase
    | succ n hn ih =>
      rw [stateAfter_succ]
      exact runStep_flowRate_zero cfg dt _ _ ih

/-- Claim C2 witness: with `stop_flow = 3/2` and `dt = 1`, invocation 1
(interval `(1, 2)` strictly straddling `3/2`) writes the flow rate to 0,
and the flow rate is 0 at step 4. -/
theorem C2_flow_shutoff_witness :
    (0 : ℚ) < 1
    ∧ Effect.setVolumeFlowRate 0 ∈ effectsAt cfgFlowMid 1 initState 1
    ∧ (stateAfter cfgFlowMid 1 initState 4).flowRate = 0 := by
  have h := C2_flow_shutoff cfgFlowMid 1 initState (by norm_num)
  have hmem : Effect.setVolumeFlowRate 0 ∈ effectsAt cfgFlowMid 1 initState 1 :=
    (h.1 1 0).mpr ⟨rfl, Nat.le_refl 1, by norm_num [cfgFlowMid], by norm_num [cfgFlowMid]⟩
  exact ⟨by norm_num, hmem, h.2.2 1 4 hmem (by omega)⟩

/-- Claim C2 counterexample: with `stop_flow = 2` and `dt = 1`, invocation
1 satisfies the claim's condition `t < stop_flow ≤ t + dt` (`1 < 2 ≤ 2`),
yet the flow rate is not set to zero on that step — nor ever: it is still
1 at step 5.  The code's trigger is strict (`t + dt > stop_flow`), so an
edge landing exactly on a step time is missed entirely. -/
theorem C2_counterexample :
    ((1 : ℚ) * 1 < cfgStopFlow2.stop_flow ∧ cfgStopFlow2.stop_flow ≤ (1 : ℚ) * 1 + 1)
    ∧ (stateAfter cfgStopFlow2 1 initState 1).flowRate = 1
    ∧ (stateAfter cfgStopFlow2 1 initState 5).flowRate = 1 := by
  refine ⟨by norm_num [cfgStopFlow2], ?_, ?_⟩
  · rw [frozen_sf2 1 (by omega)]
    rfl
  · rw [frozen_sf2 5 (by omega)]
    rfl

/-- Each invocation either leaves the kick counter unchanged or increments
it by exactly one (only the kick branch increments). -/
theorem count_step (cfg : Config) (dt : ℚ) (init : SysState) (k : ℕ) :
    (stateAfter cfg dt init (k + 1)).ctrl.kick_count =
      (stateAfter cfg dt init k).ctrl.kick_count
    ∨ (stateAfter cfg dt init (k + 1)).ctrl.kick_count =
      (stateAfter cfg dt init k).ctrl.kick_count + 1 := by
  rw [stateAfter_succ]
  by_cases h1 : ((k : ℚ) + 1) * dt < cfg.stop_flow ∧
      ((k : ℚ) + 1) * dt + dt > cfg.stop_flow
  · rw [runStep_flow cfg dt _ _ h1]
    exact Or.inl rfl
  · by_cases h2 : (stateAfter cfg dt init k).ctrl.kick_interval_counter <
        ((k : ℚ) + 1) * dt ∧ ((k : ℚ) + 1) * dt <
        (stateAfter cfg dt init k).ctrl.kick_interval_counter + cfg.pulse_interval
    · rw [runStep_kick cfg dt _ _ h1 h2]
      exact Or.inr rfl
    · by_cases h3 : ((k : ℚ) + 1) * dt > cfg.stop_kick
      · rw [runStep_zero cfg dt _ _ h1 h2 h3]
        exact Or.inl rfl
      · rw [runStep_none cfg dt _ _ h1 h2 h3]
        exact Or.inl rfl

theorem kicksUpTo_succ (cfg : Config) (dt : ℚ) (init : SysState) (k : ℕ) :
    kicksUpTo cfg dt init (k + 1) =
      kicksUpTo cfg dt init k + (if kickFiredAt cfg dt init (k + 1) then 1 else 0) := by
  unfold kicksUpTo
  rw [List.range_succ, List.filter_append, List.length_append]
  congr 1
  by_cases h : kickFiredAt cfg dt init (k + 1)
  · simp [List.filter_singleton, h]
  · simp [List.filter_singleton, h]

/-- The kick counter after `k` invocations equals the initial counter plus
the number of invocations among `1..k` that fired a kick. -/
theorem count_eq_kicks (cfg : Config) (dt : ℚ) (init : SysState) (k : ℕ) :
    (stateAfter cfg dt init k).ctrl.kick_count =
      init.ctrl.kick_count + kicksUpTo cfg dt init k := by
  induction k with
  | zero => simp [stateAfter, kicksUpTo]
  | succ k ih =>
    rw [kicksUpTo_succ]
    by_cases h : kickFiredAt cfg dt init (k + 1)
    · have hc : (stateAfter cfg dt init (k + 1)).ctrl.kick_count =
          (stateAfter cfg dt init k).ctrl.kick_count + 1 := h
      rw [hc, ih, if_pos h]
      omega
    · rcases count_step cfg dt init k with hs | hs
      · rw [hs, ih, if_neg h]
        omega
      · exact absurd (show kickFiredAt cfg dt init (k + 1) from hs) h

/-- Claim C5: kick signs strictly alternate by parity of the kick counter:
when invocation `k + 1` fires a kick and `n` kicks have fired before it
(counting from the start of the run, so this is the n-th kick, n from 0),
the single effect performed is the floor-wall velocity write
`(0, 0, amplitude * (-1)^n)`, for the fixed configured amplitude. -/
theorem C5_kick_sign_alternation (cfg : Config) (dt : ℚ) (k : ℕ)
    (h : kickFiredAt cfg dt initState (k + 1)) :
    effectsAt cfg dt initState (k + 1) =
      [Effect.setLastWallVelocity
        ⟨0, 0, cfg.oscillation_amplitude * (-1) ^ kicksUpTo cfg dt initState k⟩] := by
  have hcount : (stateAfter cfg dt initState (k + 1)).ctrl.kick_count =
      (stateAfter cfg dt initState k).ctrl.kick_count + 1 := h
  rw [effectsAt_succ]
  by_cases h1 : ((k : ℚ) + 1) * dt < cfg.stop_flow ∧
      ((k : ℚ) + 1) * dt + dt > cfg.stop_flow
  · exfalso
    have hctrl : (stateAfter cfg dt initState (k + 1)).ctrl =
        (stateAfter cfg dt initState k).ctrl := by
      rw [stateAfter_succ, runStep_flow cfg dt _ _ h1]
    rw [hctrl] at hcount
    omega
  · by_cases h2 : (stateAfter cfg dt initState k).ctrl.kick_interval_counter <
        ((k : ℚ) + 1) * dt ∧ ((k : ℚ) + 1) * dt <
        (stateAfter cfg dt initState k).ctrl.kick_interval_counter + cfg.pulse_interval
    · rw [actions_kick cfg _ dt _ h1 h2]
      have hn : (stateAfter cfg dt initState k).ctrl.kick_count =
          kicksUpTo cfg dt initState k := by
        have hck := count_eq_kicks cfg dt initState k
        simpa [initState, initWith] using hck
      rw [hn]
    · exfalso
      by_cases h3 : ((k : ℚ) + 1) * dt > cfg.stop_kick
      · have hctrl : (stateAfter cfg dt initState (k + 1)).ctrl =
            (stateAfter cfg dt initState k).ctrl := by
          rw [stateAfter_succ, runStep_zero cfg dt _ _ h1 h2 h3]
        rw [hctrl] at hcount
        omega
      · have hctrl : (stateAfter cfg dt initState (k + 1)).ctrl =
            (stateAfter cfg dt initState k).ctrl := by
          rw [stateAfter_succ, runStep_none cfg dt _ _ h1 h2 h3]
        rw [hctrl] at hcount
        omega

/-- With the source configuration and `dt = 1/10`, invocation 16 (time 1.6,
the first step time inside the window `(1.5, 1.75)`) fires the first kick. -/
theorem kick16 : stateAfter defaultConfig (1/10) initState 16 =
    { ctrl := ⟨1, 7/4⟩, flowRate := 1, floorVel := ⟨0, 0, 1⟩ } := by
  have h15 := frozen_dt10 15 (Nat.le_refl 15)
  have h1 : ¬((((15 : ℕ) : ℚ) + 1) * (1/10) < defaultConfig.stop_flow ∧
      (((15 : ℕ) : ℚ) + 1) * (1/10) + 1/10 > defaultConfig.stop_flow) := by
    norm_num [defaultConfig]
  have h2 : initState.ctrl.kick_interval_counter < (((15 : ℕ) : ℚ) + 1) * (1/10) ∧
      (((15 : ℕ) : ℚ) + 1) * (1/10) <
        initState.ctrl.kick_interval_counter + defaultConfig.pulse_interval := by
    norm_num [initState, initWith, defaultConfig]
  rw [show (16 : ℕ) = 15 + 1 from rfl, stateAfter_succ, h15,
    runStep_kick defaultConfig (1/10) initState _ h1 h2]
  norm_num [initState, initWith, defaultConfig, SysState.mk.injEq,
    ControllerState.mk.injEq, Vec3D.mk.injEq]

theorem kickFired16 : kickFiredAt defaultConfig (1/10) initState 16 := by
  show (stateAfter defaultConfig (1/10) initState 16).ctrl.kick_count =
    (stateAfter defaultConfig (1/10) initState 15).ctrl.kick_count + 1
  rw [kick16, frozen_dt10 15 (Nat.le_refl 15)]
  rfl

theorem noKick_le15 (j : ℕ) (hj : j < 15) :
    ¬ kickFiredAt defaultConfig (1/10) initState (j + 1) := by
  intro h
  have hcount : (stateAfter defaultConfig (1/10) initState (j + 1)).ctrl.kick_count =
      (stateAfter defaultConfig (1/10) initState j).ctrl.kick_count + 1 := h
  rw [frozen_dt10 (j + 1) (by omega), frozen_dt10 j (by omega)] at hcount
  omega

theorem kicksUpTo15 : kicksUpTo defaultConfig (1/10) initState 15 = 0 := by
  unfold kicksUpTo
  rw [List.length_eq_zero, List.filter_eq_nil_iff]
  intro j hj
  simp only [List.mem_range] at hj
  simp only [decide_eq_true_eq]
  exact noKick_le15 j hj

/-- Claim C5 witness: invocation 16 at `dt = 1/10` fires a kick with zero
kicks before it, and its single effect is the velocity write
`(0, 0, amplitude * (-1)^0)`. -/
theorem C5_kick_sign_alternation_witness :
    kickFiredAt defaultConfig (1/10) initState 16
    ∧ effectsAt defaultConfig (1/10) initState 16 =
        [Effect.setLastWallVelocity
          ⟨0, 0, defaultConfig.oscillation_amplitude *
            (-1) ^ kicksUpTo defaultConfig (1/10) initState 15⟩] :=
  ⟨kickFired16, C5_kick_sign_alternation defaultConfig (1/10) 15 kickFired16⟩

/-! ### The source-configured scenario at the program's step size 1/10000 -/

/-- Through step 15000 (time 1.5) nothing fires: the flow edge would need a
step time strictly inside `(0.9999, 1)` and `1/dt = 10000` is an integer,
so no such step exists; the kick window opens only after 1.5. -/
theorem idle_15000 (k : ℕ) (hk : k ≤ 15000) :
    stateAfter defaultConfig (1/10000) initState k = initState := by
  refine stateAfter_const defaultConfig (1/10000) initState initState 0 rfl k (Nat.zero_le k) ?_
  intro m hm0 hmk
  have hm : m ≤ 15000 := le_trans hmk hk
  have hmq : (m : ℚ) ≤ 15000 := by exact_mod_cast hm
  have h1 : ¬((m : ℚ) * (1/10000) < defaultConfig.stop_flow ∧
      (m : ℚ) * (1/10000) + 1/10000 > defaultConfig.stop_flow) := by
    rintro ⟨c1, c2⟩
    simp only [defaultConfig] at c1 c2
    have hn1 : m < 10000 := by exact_mod_cast (by linarith : (m : ℚ) < 10000)
    have hn2 : 9999 < m := by exact_mod_cast (by linarith : (9999 : ℚ) < (m : ℚ))
    omega
  have h2 : ¬(initState.ctrl.kick_interval_counter < (m : ℚ) * (1/10000) ∧
      (m : ℚ) * (1/10000) < initState.ctrl.kick_interval_counter +
        defaultConfig.pulse_interval) := by
    rintro ⟨c1, -⟩
    simp only [initState, initWith, defaultConfig] at c1
    have h15 : (15000 : ℚ) < (m : ℚ) := by linarith
    have : 15000 < m := by exact_mod_cast h15
    omega
  have h3 : ¬((m : ℚ) * (1/10000) > defaultConfig.stop_kick) := by
    intro c
    simp only [defaultConfig] at c
    linarith
  rw [runStep_none defaultConfig (1/10000) initState _ h1 h2 h3]

/-- Between two kicks the state is frozen: from step `15001 + 2500 n`
(the n-th kick) through step `17500 + 2500 n` (time reaching the new
threshold) no branch fires, for every kick index up to 73 (where the new
threshold is `stop_kick = 20`). -/
theorem seg_const (n : ℕ) (hn : n ≤ 73)
    (h0 : stateAfter defaultConfig (1/10000) initState (15001 + 2500 * n) = kickStateAt n)
    (m : ℕ) (hm1 : 15001 + 2500 * n ≤ m) (hm2 : m ≤ 17500 + 2500 * n) :
    stateAfter defaultConfig (1/10000) initState m = kickStateAt n := by
  refine stateAfter_const defaultConfig (1/10000) initState (kickStateAt n)
    (15001 + 2500 * n) h0 m hm1 ?_
  intro j hj1 hj2
  have hj2' : j ≤ 17500 + 2500 * n := le_trans hj2 hm2
  have hjq1 : ((15001 + 2500 * n : ℕ) : ℚ) < (j : ℚ) := by exact_mod_cast hj1
  have hjq2 : (j : ℚ) ≤ ((17500 + 2500 * n : ℕ) : ℚ) := by exact_mod_cast hj2'
  have hnq : (n : ℚ) ≤ 73 := by exact_mod_cast hn
  have hn0 : (0 : ℚ) ≤ (n : ℚ) := by positivity
  rw [show ((15001 + 2500 * n : ℕ) : ℚ) = 15001 + 2500 * (n : ℚ) from by push_cast; ring]
    at hjq1
  rw [show ((17500 + 2500 * n : ℕ) : ℚ) = 17500 + 2500 * (n : ℚ) from by push_cast; ring]
    at hjq2
  have h1 : ¬((j : ℚ) * (1/10000) < defaultConfig.stop_flow ∧
      (j : ℚ) * (1/10000) + 1/10000 > defaultConfig.stop_flow) := by
    rintro ⟨c1, -⟩
    simp only [defaultConfig] at c1
    linarith
  have h2 : ¬((kickStateAt n).ctrl.kick_interval_counter < (j : ℚ) * (1/10000) ∧
      (j : ℚ) * (1/10000) < (kickStateAt n).ctrl.kick_interval_counter +
        defaultConfig.pulse_interval) := by
    rintro ⟨c1, -⟩
    simp only [kickStateAt, defaultConfig] at c1
    linarith
  have h3 : ¬((j : ℚ) * (1/10000) > defaultConfig.stop_kick) := by
    intro c
    simp only [defaultConfig] at c
    linarith
  rw [runStep_none defaultConfig (1/10000) (kickStateAt n) _ h1 h2 h3]

/-- Closed form of the scenario: for every `n ≤ 73`, step `15001 + 2500 n`
(time `1.5001 + 0.25 n`) fires the n-th kick, yielding `kickStateAt n`. -/
theorem scenario_kick : ∀ n : ℕ, n ≤ 73 →
    stateAfter defaultConfig (1/10000) initState (15001 + 2500 * n) = kickStateAt n := by
  intro n
  induction n with
  | zero =>
    intro _
    have h15000 := idle_15000 15000 (Nat.le_refl 15000)
    have h1 : ¬((((15000 : ℕ) : ℚ) + 1) * (1/10000) < defaultConfig.stop_flow ∧
        (((15000 : ℕ) : ℚ) + 1) * (1/10000) + 1/10000 > defaultConfig.stop_flow) := by
      norm_num [defaultConfig]
    have h2 : initState.ctrl.kick_interval_counter <
          (((15000 : ℕ) : ℚ) + 1) * (1/10000) ∧
        (((15000 : ℕ) : ℚ) + 1) * (1/10000) <
          initState.ctrl.kick_interval_counter + defaultConfig.pulse_interval := by
      norm_num [initState, initWith, defaultConfig]
    rw [show 15001 + 2500 * 0 = 15000 + 1 from rfl, stateAfter_succ, h15000,
      runStep_kick defaultConfig (1/10000) initState _ h1 h2]
    norm_num [initState, initWith, defaultConfig, kickStateAt, SysState.mk.injEq,
      ControllerState.mk.injEq, Vec3D.mk.injEq]
  | succ n ih =>
    intro hn1
    have hn73 : n ≤ 73 := by omega
    have hK := ih hn73
    have hmid : stateAfter defaultConfig (1/10000) initState (17500 + 2500 * n) =
        kickStateAt n :=
      seg_const n hn73 hK (17500 + 2500 * n) (by omega) (Nat.le_refl _)
    have hidx : 15001 + 2500 * (n + 1) = (17500 + 2500 * n) + 1 := by ring
    rw [hidx, stateAfter_succ, hmid]
    have hcast : ((17500 + 2500 * n : ℕ) : ℚ) = 17500 + 2500 * (n : ℚ) := by
      push_cast; ring
    have hn0 : (0 : ℚ) ≤ (n : ℚ) := by positivity
    have h1 : ¬((((17500 + 2500 * n : ℕ) : ℚ) + 1) * (1/10000) < defaultConfig.stop_flow ∧
        (((17500 + 2500 * n : ℕ) : ℚ) + 1) * (1/10000) + 1/10000 >
          defaultConfig.stop_flow) := by
      rintro ⟨c1, -⟩
      rw [hcast] at c1
      simp only [defaultConfig] at c1
      linarith
    have h2 : (kickStateAt n).ctrl.kick_interval_counter <
          (((17500 + 2500 * n : ℕ) : ℚ) + 1) * (1/10000) ∧
        (((17500 + 2500 * n : ℕ) : ℚ) + 1) * (1/10000) <
          (kickStateAt n).ctrl.kick_interval_counter + defaultConfig.pulse_interval := by
      rw [hcast]
      simp only [kickStateAt, defaultConfig]
      have hexp : ((17500 + 2500 * (n : ℚ)) + 1) * (1/10000) =
          7/4 + (n : ℚ)/4 + 1/10000 := by ring
      rw [hexp]
      constructor
      · linarith
      · linarith
    rw [runStep_kick defaultConfig (1/10000) (kickStateAt n) _ h1 h2]
    simp only [kickStateAt, defaultConfig, one_mul, SysState.mk.injEq,
      ControllerState.mk.injEq, Vec3D.mk.injEq]
    refine ⟨⟨trivial, ?_⟩, trivial, trivial⟩
    push_cast
    ring

/-- The state is still `kickStateAt 73` (counter 74, threshold 20, floor
velocity −1) at step 200000, time exactly 20. -/
theorem scenario_200000 :
    stateAfter defaultConfig (1/10000) initState 200000 = kickStateAt 73 := by
  have hK : stateAfter defaultConfig (1/10000) initState 197501 = kickStateAt 73 := by
    have h := scenario_kick 73 (Nat.le_refl 73)
    norm_num at h
    exact h
  refine stateAfter_const defaultConfig (1/10000) initState (kickStateAt 73)
    197501 hK 200000 (by omega) ?_
  intro j hj1 hj2
  have hjq1 : (197501 : ℚ) < (j : ℚ) := by exact_mod_cast hj1
  have hjq2 : (j : ℚ) ≤ 200000 := by exact_mod_cast hj2
  have h1 : ¬((j : ℚ) * (1/10000) < defaultConfig.stop_flow ∧
      (j : ℚ) * (1/10000) + 1/10000 > defaultConfig.stop_flow) := by
    rintro ⟨c1, -⟩
    simp only [defaultConfig] at c1
    linarith
  have h2 : ¬((kickStateAt 73).ctrl.kick_interval_counter < (j : ℚ) * (1/10000) ∧
      (j : ℚ) * (1/10000) < (kickStateAt 73).ctrl.kick_interval_counter +
        defaultConfig.pulse_interval) := by
    rintro ⟨c1, -⟩
    simp only [kickStateAt, defaultConfig] at c1
    norm_num at c1
    linarith
  have h3 : ¬((j : ℚ) * (1/10000) > defaultConfig.stop_kick) := by
    intro c
    simp only [defaultConfig] at c
    linarith
  rw [runStep_none defaultConfig (1/10000) (kickStateAt 73) _ h1 h2 h3]

/-- At step 200001 — time 20.0001, strictly after `stop_kick` — the kick
branch fires: the counter increments to 75 and the floor wall is written
the nonzero velocity `(0, 0, +1)`. -/
theorem scenario_200001 :
    stateAfter defaultConfig (1/10000) initState 200001 =
      { ctrl := ⟨75, 81/4⟩, flowRate := 1, floorVel := ⟨0, 0, 1⟩ } := by
  have h1 : ¬((((200000 : ℕ) : ℚ) + 1) * (1/10000) < defaultConfig.stop_flow ∧
      (((200000 : ℕ) : ℚ) + 1) * (1/10000) + 1/10000 > defaultConfig.stop_flow) := by
    norm_num [defaultConfig]
  have h2 : (kickStateAt 73).ctrl.kick_interval_counter <
        (((200000 : ℕ) : ℚ) + 1) * (1/10000) ∧
      (((200000 : ℕ) : ℚ) + 1) * (1/10000) <
        (kickStateAt 73).ctrl.kick_interval_counter + defaultConfig.pulse_interval := by
    norm_num [kickStateAt, defaultConfig]
  rw [show (200001 : ℕ) = 200000 + 1 from rfl, stateAfter_succ, scenario_200000,
    runStep_kick defaultConfig (1/10000) (kickStateAt 73) _ h1 h2]
  have hpow : ((-1 : ℚ)) ^ ((73 : ℕ) + 1) = 1 := Even.neg_one_pow ⟨37, by norm_num⟩
  norm_num [kickStateAt, defaultConfig, SysState.mk.injEq, ControllerState.mk.injEq,
    Vec3D.mk.injEq, hpow]

/-- Claim C1 (code-bug evidence): at the program's own step size
`dt = 1/10000`, invocation 200001 has time `20.0001 > stop_kick = 20`, yet
the controller fires a kick — the counter goes from 74 to 75 and the floor
wall is written a nonzero velocity instead of being forced to zero —
because the kick branch precedes the `t > stop_kick` branch in the else-if
chain and never tests `stop_kick`. -/
theorem C1_kick_fires_after_stop_kick :
    defaultConfig.stop_kick < (200001 : ℚ) * (1/10000)
    ∧ (stateAfter defaultConfig (1/10000) initState 200000).ctrl.kick_count = 74
    ∧ (stateAfter defaultConfig (1/10000) initState 200001).ctrl.kick_count = 75
    ∧ (stateAfter defaultConfig (1/10000) initState 200001).floorVel ≠ ⟨0, 0, 0⟩ := by
  refine ⟨by norm_num [defaultConfig], ?_, ?_, ?_⟩
  · rw [scenario_200000]
    rfl
  · rw [scenario_200001]
  · rw [scenario_200001]
    intro h
    have hz := congrArg Vec3D.Z h
    norm_num at hz

/-- Claim C3 (code-bug evidence): in the spec's scenario (source
configuration, `dt = 0.0001`), at time `20.0001 ∈ (20, 25]` the floor
velocity is the nonzero `(0, 0, +amplitude)` — the trace's final phase
"velocity forced to 0 from 20 through 25" does not hold on the code. -/
theorem C3_trace_fails_after_stop_kick :
    (defaultConfig.stop_kick < (200001 : ℚ) * (1/10000)
      ∧ (200001 : ℚ) * (1/10000) ≤ 25)
    ∧ (stateAfter defaultConfig (1/10000) initState 200001).floorVel =
        ⟨0, 0, defaultConfig.oscillation_amplitude⟩
    ∧ (⟨0, 0, defaultConfig.oscillation_amplitude⟩ : Vec3D) ≠ ⟨0, 0, 0⟩ := by
  refine ⟨⟨by norm_num [defaultConfig], by norm_num⟩, ?_, ?_⟩
  · rw [scenario_200001]
    simp [defaultConfig]
  · intro h
    have hz := congrArg Vec3D.Z h
    norm_num [defaultConfig] at hz

end Quantum
